import Mathlib

/-!
Verification of the split-pane layout component in
src/components/FlexibleScreen.tsx.

The component keeps two ratios, topPct and leftPct, mutated only by the
drag controller (onPointerMove), the keyboard handlers (handleVerticalKey,
handleHorizontalKey) and the reset branches.  Persistence goes through a
string-keyed store (localStorage in the source).  Numbers are modelled as
rationals; the store is modelled as a function from keys to optional
stored values, where a stored value is either the serialized layout object
(JSON text of an object with numeric topPct and leftPct fields) or any
other text (not JSON, or JSON of the wrong shape).  Exceptions thrown by
the store or by JSON parsing are modelled by the branches the source
catches: every catch in the source falls through to the same result as the
corresponding guard, so the total functions below cover them.
-/

/-- Axis of a drag session, from `dragRef.current.type`. -/
inductive Axis where
  | horizontal
  | vertical
deriving DecidableEq, Repr

/-- Key identifiers consulted by the two keyboard handlers. -/
inductive Key where
  | arrowLeft
  | arrowRight
  | arrowUp
  | arrowDown
  | home
  | other
deriving DecidableEq, Repr

/-- The component configuration props.  `minTopPct = 20`, `minBottomPct = 20`,
`minLeftPct = 15`, `minRightPct = 15` are the source defaults; `initialTopPct`
and `initialLeftPct` model `initial.topPct` and `initial.leftPct` (absent
fields are `none`); `storageKey` models the nullable `storageKey` prop. -/
structure Config where
  minTopPct : ℚ
  minBottomPct : ℚ
  minLeftPct : ℚ
  minRightPct : ℚ
  initialTopPct : Option ℚ
  initialLeftPct : Option ℚ
  storageKey : Option String

/-- The layout state: the two ratios held in React state. -/
structure LayoutState where
  topPct : ℚ
  leftPct : ℚ
deriving DecidableEq, Repr

/-- `clamp(v, min, max) = Math.min(Math.max(v, min), max)` from the source. -/
def clamp (v lo hi : ℚ) : ℚ := min (max v lo) hi

/-- A value held in the string store: either the serialization of a layout
object (the JSON text of an object carrying numeric topPct and leftPct,
exactly what the persist effect writes) or any other text, covering
non-JSON strings and JSON values without both numeric fields. -/
inductive StoreVal where
  | layout (topPct leftPct : ℚ)
  | text (s : String)
deriving DecidableEq, Repr

/-- The key-value string store backing persistence (localStorage). -/
def Store : Type := String → Option StoreVal

/-- The empty store. -/
def Store.empty : Store := fun _ => none

/-- `localStorage.setItem`. -/
def Store.set (st : Store) (k : String) (v : StoreVal) : Store :=
  fun q => if q = k then some v else st q

/-- `localStorage.getItem`. -/
def Store.get (st : Store) (k : String) : Option StoreVal := st k

/-- Whether a raw stored value is truthy in the sense of `if (!raw)`:
null and the empty string are falsy. -/
def rawTruthy : Option StoreVal → Bool
  | none => false
  | some (StoreVal.text s) => !(s = "")
  | some (StoreVal.layout _ _) => true

/-- `readStored` from the source: null when no truthy storageKey, when the
key is absent or maps to a falsy string, or when the stored text does not
parse into an object with numeric topPct and leftPct (the catch branch and
the typeof guard both fall through to null); otherwise the parsed pair,
each component clamped into its configured range. -/
def readStored (c : Config) (st : Store) : Option LayoutState :=
  match c.storageKey with
  | none => none
  | some key =>
    if key = "" then none
    else
      let raw := st.get key
      if rawTruthy raw then
        match raw with
        | some (StoreVal.layout t l) =>
          some { topPct := clamp t c.minTopPct (100 - c.minBottomPct),
                 leftPct := clamp l c.minLeftPct (100 - c.minRightPct) }
        | _ => none
      else none

/-- The two useState initializers:
`stored?.topPct ?? (initial.topPct ?? 65)` and
`stored?.leftPct ?? (initial.leftPct ?? 50)`. -/
def initState (c : Config) (st : Store) : LayoutState :=
  match readStored c st with
  | some s => s
  | none =>
    { topPct := c.initialTopPct.getD 65,
      leftPct := c.initialLeftPct.getD 50 }

/-- The persist effect: when the storageKey is truthy, serialize
`{topPct, leftPct}` and write it under the key; the try/catch swallows a
failing setItem, leaving the store as it was.  `writeOk` models whether
the underlying setItem succeeds or throws. -/
def persist (c : Config) (s : LayoutState) (st : Store) (writeOk : Bool) : Store :=
  match c.storageKey with
  | none => st
  | some key =>
    if key = "" then st
    else if writeOk then st.set key (StoreVal.layout s.topPct s.leftPct)
    else st

/-- A DOMRect as consulted by `getBoundingClientRect`. -/
structure Rect where
  top : ℚ
  left : ℚ
  width : ℚ
  height : ℚ
deriving DecidableEq, Repr

/-- The pointer event coordinates `clientX` and `clientY`. -/
structure Pointer where
  clientX : ℚ
  clientY : ℚ
deriving DecidableEq, Repr

/-- `onPointerMove` from the source.  `drag` is `dragRef.current`;
`containerRect` is the bounding rect of `containerRef` (the whole surface)
and `topAreaRect` that of `topAreaRef` (the top region).  A move with no
active drag returns early; a horizontal drag writes
`clamp((clientY - container.top) / container.height * 100, minTopPct, 100 - minBottomPct)`
to topPct; a vertical drag writes
`clamp((clientX - topArea.left) / topArea.width * 100, minLeftPct, 100 - minRightPct)`
to leftPct.  The source divides without guarding the rect size. -/
def onPointerMove (c : Config) (drag : Option Axis)
    (containerRect topAreaRect : Rect) (e : Pointer)
    (s : LayoutState) : LayoutState :=
  match drag with
  | none => s
  | some Axis.horizontal =>
    let rect := containerRect
    let y := e.clientY - rect.top
    let pct := (y / rect.height) * 100
    { s with topPct := clamp pct c.minTopPct (100 - c.minBottomPct) }
  | some Axis.vertical =>
    let rect := topAreaRect
    let x := e.clientX - rect.left
    let pct := (x / rect.width) * 100
    { s with leftPct := clamp pct c.minLeftPct (100 - c.minRightPct) }

/-- The keyboard step constant, `const step = 2`. -/
def step : ℚ := 2

/-- `handleVerticalKey`: ArrowLeft and ArrowRight move leftPct by the step,
clamped; Home writes 50 with no clamp; other keys are ignored. -/
def handleVerticalKey (c : Config) (k : Key) (s : LayoutState) : LayoutState :=
  match k with
  | Key.arrowLeft =>
    { s with leftPct := clamp (s.leftPct - step) c.minLeftPct (100 - c.minRightPct) }
  | Key.arrowRight =>
    { s with leftPct := clamp (s.leftPct + step) c.minLeftPct (100 - c.minRightPct) }
  | Key.home => { s with leftPct := 50 }
  | _ => s

/-- `handleHorizontalKey`: ArrowUp and ArrowDown move topPct by the step,
clamped; Home writes 66 with no clamp; other keys are ignored. -/
def handleHorizontalKey (c : Config) (k : Key) (s : LayoutState) : LayoutState :=
  match k with
  | Key.arrowUp =>
    { s with topPct := clamp (s.topPct - step) c.minTopPct (100 - c.minBottomPct) }
  | Key.arrowDown =>
    { s with topPct := clamp (s.topPct + step) c.minTopPct (100 - c.minBottomPct) }
  | Key.home => { s with topPct := 66 }
  | _ => s

/-- An input event of the component: a key-down on one of the two handles,
a pointer-down on a handle (startDrag), a pointer-move carrying the two
rects measured at that instant, or a pointer-up or pointer-cancel
(stopDragging). -/
inductive Event where
  | keyVertical (k : Key)
  | keyHorizontal (k : Key)
  | pointerDown (a : Axis)
  | pointerMove (containerRect topAreaRect : Rect) (e : Pointer)
  | pointerUp
deriving DecidableEq, Repr

/-- The in-memory component state: the layout ratios and the drag session
`dragRef.current`. -/
structure Machine where
  layout : LayoutState
  drag : Option Axis
deriving DecidableEq, Repr

/-- One event transition of the component, combining startDrag,
stopDragging, onPointerMove and the two key handlers. -/
def stepEvent (c : Config) (m : Machine) (ev : Event) : Machine :=
  match ev with
  | Event.keyVertical k => { m with layout := handleVerticalKey c k m.layout }
  | Event.keyHorizontal k => { m with layout := handleHorizontalKey c k m.layout }
  | Event.pointerDown a => { m with drag := some a }
  | Event.pointerMove cr tr p =>
    { m with layout := onPointerMove c m.drag cr tr p m.layout }
  | Event.pointerUp => { m with drag := none }

/-- Run a sequence of events from a machine state. -/
def run (c : Config) (m : Machine) : List Event → Machine
  | [] => m
  | ev :: evs => run c (stepEvent c m ev) evs

/-- The full system: component state plus the backing store. -/
structure SysState where
  machine : Machine
  store : Store

/-- One event transition of the full system: the component transition,
followed by the persist effect when the layout value changed (the effect
dependency array is the pair of ratios, so an unchanged layout does not
rewrite).  `writeOk` models whether the setItem of this round succeeds. -/
def stepSys (c : Config) (sys : SysState) (ev : Event) (writeOk : Bool) : SysState :=
  let m := stepEvent c sys.machine ev
  { machine := m,
    store :=
      if m.layout = sys.machine.layout then sys.store
      else persist c m.layout sys.store writeOk }

/-- Both ratios lie in their configured clamp ranges. -/
def InRange (c : Config) (s : LayoutState) : Prop :=
  c.minTopPct ≤ s.topPct ∧ s.topPct ≤ 100 - c.minBottomPct ∧
  c.minLeftPct ≤ s.leftPct ∧ s.leftPct ≤ 100 - c.minRightPct

instance (c : Config) (s : LayoutState) : Decidable (InRange c s) := by
  unfold InRange; infer_instance

/-- A pointer-move event has measurable geometry on the axis it would be
applied to: nonzero container height and nonzero top-area width.  Other
events are unconstrained. -/
def goodEvent : Event → Bool
  | Event.pointerMove cr tr _ => !(cr.height = 0) && !(tr.width = 0)
  | _ => true

/-- Concrete configuration with the source default bounds and initial
values and no storage key. -/
def cfgPlain : Config :=
  { minTopPct := 20, minBottomPct := 20, minLeftPct := 15, minRightPct := 15,
    initialTopPct := none, initialLeftPct := none, storageKey := none }

/-- Concrete configuration with the source default bounds and the storage
key "k". -/
def cfgDefault : Config :=
  { minTopPct := 20, minBottomPct := 20, minLeftPct := 15, minRightPct := 15,
    initialTopPct := some 65, initialLeftPct := some 50, storageKey := some "k" }

/-- Concrete configuration whose left clamp range is [60, 85], with an
in-range initial left ratio of 70 and no storage. -/
def cfgNarrowLeft : Config :=
  { minTopPct := 20, minBottomPct := 20, minLeftPct := 60, minRightPct := 15,
    initialTopPct := some 65, initialLeftPct := some 70, storageKey := none }

/-- Concrete configuration whose left bounds sum over 100, giving the
degenerate left clamp range [60, 40]. -/
def cfgOverlap : Config :=
  { minTopPct := 20, minBottomPct := 20, minLeftPct := 60, minRightPct := 60,
    initialTopPct := none, initialLeftPct := none, storageKey := none }

theorem clamp_mem (v lo hi : ℚ) (h : lo ≤ hi) :
    lo ≤ clamp v lo hi ∧ clamp v lo hi ≤ hi := by
  unfold clamp
  exact ⟨le_min (le_max_right v lo) h, min_le_right _ _⟩

theorem clamp_eq_self (v lo hi : ℚ) (h1 : lo ≤ v) (h2 : v ≤ hi) :
    clamp v lo hi = v := by
  unfold clamp
  rw [max_eq_left h1, min_eq_left h2]

theorem clamp_of_hi_lt_lo (v lo hi : ℚ) (h : hi < lo) :
    clamp v lo hi = hi := by
  unfold clamp
  exact min_eq_right (le_trans (le_of_lt h) (le_max_right v lo))

/-- Claim C9: a pointer-move event while no drag session is active leaves
the layout state unchanged. -/
theorem C9_offdrag_move_noop (c : Config) (cr tr : Rect) (p : Pointer)
    (s : LayoutState) :
    onPointerMove c none cr tr p s = s := rfl

/-- Claim C10: a pointer-move during a vertical-axis drag leaves topPct
unchanged, and one during a horizontal-axis drag leaves leftPct unchanged,
for every pointer position and every pair of container rects. -/
theorem C10_per_axis_frame (c : Config) (cr tr : Rect) (p : Pointer)
    (s : LayoutState) :
    (onPointerMove c (some Axis.vertical) cr tr p s).topPct = s.topPct ∧
    (onPointerMove c (some Axis.horizontal) cr tr p s).leftPct = s.leftPct :=
  ⟨rfl, rfl⟩

/-- Claim C4: during a drag, a vertical-axis move sets leftPct to
clamp(100 * (clientX - left) / width, minLeftPct, 100 - minRightPct) with
left and width taken from the top-region rect, and a horizontal-axis move
sets topPct to clamp(100 * (clientY - top) / height, minTopPct,
100 - minBottomPct) with top and height taken from the whole-surface rect;
each result is a function of the current pointer and rect only, not of the
previous value of the mutated ratio. -/
theorem C4_drag_geometry (c : Config) (cr tr : Rect) (p : Pointer)
    (s : LayoutState) :
    onPointerMove c (some Axis.vertical) cr tr p s =
      { s with leftPct := clamp (100 * (p.clientX - tr.left) / tr.width) c.minLeftPct (100 - c.minRightPct) } ∧
    onPointerMove c (some Axis.horizontal) cr tr p s =
      { s with topPct := clamp (100 * (p.clientY - cr.top) / cr.height) c.minTopPct (100 - c.minBottomPct) } := by
  have hx : (p.clientX - tr.left) / tr.width * 100
      = 100 * (p.clientX - tr.left) / tr.width := by ring
  have hy : (p.clientY - cr.top) / cr.height * 100
      = 100 * (p.clientY - cr.top) / cr.height := by ring
  constructor
  · exact congrArg (fun q => ({ s with leftPct := clamp q c.minLeftPct (100 - c.minRightPct) } : LayoutState)) hx
  · exact congrArg (fun q => ({ s with topPct := clamp q c.minTopPct (100 - c.minBottomPct) } : LayoutState)) hy

/-- Claim C2 is refuted at a concrete input: with minLeftPct = 60 and
minRightPct = 15, pressing Home on the vertical handle writes leftPct = 50,
while the claim demands clamp(50, 60, 85) = 60. -/
theorem C2_counterexample :
    (handleVerticalKey cfgNarrowLeft Key.home
        { topPct := 65, leftPct := 70 }).leftPct = 50 ∧
    clamp 50 cfgNarrowLeft.minLeftPct (100 - cfgNarrowLeft.minRightPct) = 60 ∧
    (50 : ℚ) ≠ 60 := by
  refine ⟨rfl, ?_, by norm_num⟩
  norm_num [cfgNarrowLeft, clamp, max_def, min_def]

/-- Claim C2 (amended): while the vertical handle is focused, ArrowLeft
moves leftPct down by 2 and ArrowRight up by 2, each clamped into
[minLeftPct, 100 - minRightPct], and Home writes exactly 50 with no clamp;
while the horizontal handle is focused, ArrowUp moves topPct down by 2 and
ArrowDown up by 2, each clamped into [minTopPct, 100 - minBottomPct], and
Home writes exactly 66 with no clamp. -/
theorem C2_keyboard_amended (c : Config) (s : LayoutState) :
    handleVerticalKey c Key.arrowLeft s =
      { s with leftPct := clamp (s.leftPct - 2) c.minLeftPct (100 - c.minRightPct) } ∧
    handleVerticalKey c Key.arrowRight s =
      { s with leftPct := clamp (s.leftPct + 2) c.minLeftPct (100 - c.minRightPct) } ∧
    handleVerticalKey c Key.home s = { s with leftPct := 50 } ∧
    handleHorizontalKey c Key.arrowUp s =
      { s with topPct := clamp (s.topPct - 2) c.minTopPct (100 - c.minBottomPct) } ∧
    handleHorizontalKey c Key.arrowDown s =
      { s with topPct := clamp (s.topPct + 2) c.minTopPct (100 - c.minBottomPct) } ∧
    handleHorizontalKey c Key.home s = { s with topPct := 66 } :=
  ⟨rfl, rfl, rfl, rfl, rfl, rfl⟩

/-- Concrete configuration with an initial topPct of 5, below the
configured minTopPct of 20, and the storage key "k". -/
def cfgLowInitial : Config :=
  { minTopPct := 20, minBottomPct := 20, minLeftPct := 15, minRightPct := 15,
    initialTopPct := some 5, initialLeftPct := some 50, storageKey := some "k" }

/-- Claim C3 is refuted at a concrete input: with minTopPct = 20, an
initial topPct of 5 and an empty store, initialization returns topPct = 5
unclamped, while the claim demands clamp(5, 20, 80) = 20. -/
theorem C3_counterexample :
    (initState cfgLowInitial Store.empty).topPct = 5 ∧
    clamp 5 cfgLowInitial.minTopPct (100 - cfgLowInitial.minBottomPct) = 20 ∧
    (5 : ℚ) ≠ 20 := by
  refine ⟨rfl, ?_, by norm_num⟩
  norm_num [cfgLowInitial, clamp, max_def, min_def]

/-- Claim C3 (amended): if the storage key is a nonempty string and the
store holds at that key a value parsing into an object with numeric topPct
and leftPct, initialization returns those two values clamped into the
configured ranges; otherwise (missing key, malformed data, or a read
failure, none of which reaches the caller) it returns topPct =
initialTopPct with default 65 and leftPct = initialLeftPct with default
50, with no clamping applied to this fallback. -/
theorem C3_initialize_amended (c : Config) (st : Store) :
    (∀ k t l, c.storageKey = some k → k ≠ "" →
      st.get k = some (StoreVal.layout t l) →
      initState c st =
        { topPct := clamp t c.minTopPct (100 - c.minBottomPct),
          leftPct := clamp l c.minLeftPct (100 - c.minRightPct) }) ∧
    (readStored c st = none →
      initState c st =
        { topPct := c.initialTopPct.getD 65, leftPct := c.initialLeftPct.getD 50 }) := by
  constructor
  · intro k t l hk hne hget
    simp [initState, readStored, hk, hne, hget, rawTruthy]
  · intro h
    simp [initState, h]

/-- Instantiation of the amended claim C3 at a concrete store holding the
serialized pair (70, 40) under the key "k", and at a concrete empty
store. -/
theorem C3_witness :
    initState cfgDefault (Store.set Store.empty "k" (StoreVal.layout 70 40)) =
      { topPct := clamp 70 cfgDefault.minTopPct (100 - cfgDefault.minBottomPct),
        leftPct := clamp 40 cfgDefault.minLeftPct (100 - cfgDefault.minRightPct) } ∧
    initState cfgLowInitial Store.empty = { topPct := 5, leftPct := 50 } :=
  ⟨(C3_initialize_amended cfgDefault _).1 "k" 70 40 rfl (by decide) rfl,
   (C3_initialize_amended cfgLowInitial Store.empty).2 rfl⟩

/-- Claim C5: the source has no geometry guard.  With an active
horizontal drag, a surface rect of height 0 at top 0 and a pointer at
clientY = 10, the move divides by zero and still writes topPct, so the
event is not a no-op: from the state (65, 50) the layout changes.  In the
rational model the written value is clamp((10/0)*100, 20, 80) = 20; in
JavaScript the division yields Infinity (NaN when clientY equals the rect
top) and the clamped result is written all the same. -/
theorem C5_no_geometry_guard :
    onPointerMove cfgPlain (some Axis.horizontal)
        { top := 0, left := 0, width := 0, height := 0 }
        { top := 0, left := 0, width := 0, height := 0 }
        { clientX := 10, clientY := 10 }
        { topPct := 65, leftPct := 50 } ≠
      ({ topPct := 65, leftPct := 50 } : LayoutState) := by
  simp only [onPointerMove, cfgPlain, ne_eq, LayoutState.mk.injEq]
  norm_num [clamp, max_def, min_def]

/-- Claim C6 is refuted at a concrete input: with minLeftPct = 60 and
minRightPct = 60 the left clamp range is [60, 40]; an ArrowLeft press from
leftPct = 50 yields clamp(48, 60, 40) = 40, the range maximum, not the
minimum 60 the claim asserts. -/
theorem C6_counterexample :
    (handleVerticalKey cfgOverlap Key.arrowLeft
        { topPct := 65, leftPct := 50 }).leftPct = 40 ∧
    cfgOverlap.minLeftPct = 60 ∧ (40 : ℚ) ≠ 60 := by
  refine ⟨?_, rfl, by norm_num⟩
  norm_num [handleVerticalKey, cfgOverlap, step, clamp, max_def, min_def]

/-- Claim C6 (amended): when the configured bounds make a clamp range
whose min exceeds its max, every clamped mutation of the affected ratio
(arrow keys and drag moves) collapses to the range maximum (100 minus the
opposing minimum), pinning the divider there; the Home reset still writes
its fixed value unclamped. -/
theorem C6_degenerate_amended (c : Config) (s : LayoutState)
    (cr tr : Rect) (p : Pointer) :
    (100 - c.minRightPct < c.minLeftPct →
      (handleVerticalKey c Key.arrowLeft s).leftPct = 100 - c.minRightPct ∧
      (handleVerticalKey c Key.arrowRight s).leftPct = 100 - c.minRightPct ∧
      (onPointerMove c (some Axis.vertical) cr tr p s).leftPct = 100 - c.minRightPct) ∧
    (100 - c.minBottomPct < c.minTopPct →
      (handleHorizontalKey c Key.arrowUp s).topPct = 100 - c.minBottomPct ∧
      (handleHorizontalKey c Key.arrowDown s).topPct = 100 - c.minBottomPct ∧
      (onPointerMove c (some Axis.horizontal) cr tr p s).topPct = 100 - c.minBottomPct) := by
  constructor
  · intro h
    exact ⟨clamp_of_hi_lt_lo _ _ _ h, clamp_of_hi_lt_lo _ _ _ h, clamp_of_hi_lt_lo _ _ _ h⟩
  · intro h
    exact ⟨clamp_of_hi_lt_lo _ _ _ h, clamp_of_hi_lt_lo _ _ _ h, clamp_of_hi_lt_lo _ _ _ h⟩

/-- Instantiation of the amended claim C6 at the overlapping-bounds
configuration: the degenerate left range [60, 40] pins an ArrowRight press
at 40. -/
theorem C6_witness :
    (100 - cfgOverlap.minRightPct < cfgOverlap.minLeftPct) ∧
    (handleVerticalKey cfgOverlap Key.arrowRight
        { topPct := 65, leftPct := 50 }).leftPct = 100 - cfgOverlap.minRightPct :=
  ⟨by norm_num [cfgOverlap],
   ((C6_degenerate_amended cfgOverlap { topPct := 65, leftPct := 50 }
      { top := 0, left := 0, width := 0, height := 0 }
      { top := 0, left := 0, width := 0, height := 0 }
      { clientX := 0, clientY := 0 } ).1 (by norm_num [cfgOverlap])).2.1⟩

/-- Claim C7: with a nonempty storage key, for any pair of ratios inside
the configured clamp ranges, persisting the layout and then re-reading the
same store at the same key yields exactly that pair: the serialization
round-trips and the read-side clamping is the identity on in-range
values. -/
theorem C7_persistence_roundtrip (c : Config) (k : String) (t l : ℚ) (st : Store)
    (hk : c.storageKey = some k) (hne : k ≠ "")
    (ht1 : c.minTopPct ≤ t) (ht2 : t ≤ 100 - c.minBottomPct)
    (hl1 : c.minLeftPct ≤ l) (hl2 : l ≤ 100 - c.minRightPct) :
    readStored c (persist c { topPct := t, leftPct := l } st true) =
      some { topPct := t, leftPct := l } := by
  simp [readStored, persist, hk, hne, Store.get, Store.set, rawTruthy,
    clamp_eq_self t _ _ ht1 ht2, clamp_eq_self l _ _ hl1 hl2]

/-- Instantiation of claim C7 at topPct = 70 and leftPct = 40 under the
default bounds and the key "k": the round-trip returns exactly (70, 40). -/
theorem C7_witness :
    readStored cfgDefault
        (persist cfgDefault { topPct := 70, leftPct := 40 } Store.empty true) =
      some { topPct := 70, leftPct := 40 } :=
  C7_persistence_roundtrip cfgDefault "k" 70 40 Store.empty rfl (by decide)
    (by norm_num [cfgDefault]) (by norm_num [cfgDefault])
    (by norm_num [cfgDefault]) (by norm_num [cfgDefault])

/-- Claim C8: on every event of the full system with a nonempty storage
key, the component state after the transition does not depend on whether
the storage write succeeds, and whenever the layout changed, a successful
write stores exactly the serialized pair under the key while a failed
write leaves the store untouched. -/
theorem C8_best_effort_persist (c : Config) (sys : SysState) (ev : Event)
    (ok : Bool) (k : String) (hk : c.storageKey = some k) (hne : k ≠ "") :
    (stepSys c sys ev ok).machine = stepEvent c sys.machine ev ∧
    ((stepEvent c sys.machine ev).layout ≠ sys.machine.layout →
      (ok = true →
        (stepSys c sys ev ok).store =
          Store.set sys.store k
            (StoreVal.layout (stepEvent c sys.machine ev).layout.topPct
              (stepEvent c sys.machine ev).layout.leftPct)) ∧
      (ok = false → (stepSys c sys ev ok).store = sys.store)) := by
  refine ⟨rfl, fun hch => ⟨fun hok => ?_, fun hok => ?_⟩⟩
  · simp [stepSys, persist, hk, hne, hch, hok]
  · simp [stepSys, persist, hk, hne, hch, hok]

/-- The full system started at the in-memory state (65, 50) with no active
drag over the empty store, under the default configuration with storage
key "k". -/
def sys0 : SysState :=
  { machine := { layout := { topPct := 65, leftPct := 50 }, drag := none },
    store := Store.empty }

/-- Instantiation of claim C8: an ArrowLeft press changes the layout; with
a failing write the store stays empty, and with a succeeding write the
component state is the same as the transition alone produces. -/
theorem C8_witness :
    (stepSys cfgDefault sys0 (Event.keyVertical Key.arrowLeft) false).store = sys0.store ∧
    (stepSys cfgDefault sys0 (Event.keyVertical Key.arrowLeft) true).machine =
      stepEvent cfgDefault sys0.machine (Event.keyVertical Key.arrowLeft) :=
  ⟨((C8_best_effort_persist cfgDefault sys0 (Event.keyVertical Key.arrowLeft) false "k"
      rfl (by decide)).2
      (by norm_num [stepEvent, handleVerticalKey, sys0, cfgDefault, step, clamp, max_def, min_def])).2 rfl,
   (C8_best_effort_persist cfgDefault sys0 (Event.keyVertical Key.arrowLeft) true "k"
      rfl (by decide)).1⟩

theorem stepEvent_preservesInRange (c : Config) (m : Machine) (ev : Event)
    (hT : c.minTopPct ≤ 100 - c.minBottomPct)
    (hL : c.minLeftPct ≤ 100 - c.minRightPct)
    (h50a : c.minLeftPct ≤ 50) (h50b : (50 : ℚ) ≤ 100 - c.minRightPct)
    (h66a : c.minTopPct ≤ 66) (h66b : (66 : ℚ) ≤ 100 - c.minBottomPct)
    (hm : InRange c m.layout) :
    InRange c (stepEvent c m ev).layout := by
  obtain ⟨h1, h2, h3, h4⟩ := hm
  cases ev with
  | keyVertical k =>
    cases k with
    | arrowLeft => exact ⟨h1, h2, (clamp_mem _ _ _ hL).1, (clamp_mem _ _ _ hL).2⟩
    | arrowRight => exact ⟨h1, h2, (clamp_mem _ _ _ hL).1, (clamp_mem _ _ _ hL).2⟩
    | home => exact ⟨h1, h2, h50a, h50b⟩
    | arrowUp => exact ⟨h1, h2, h3, h4⟩
    | arrowDown => exact ⟨h1, h2, h3, h4⟩
    | other => exact ⟨h1, h2, h3, h4⟩
  | keyHorizontal k =>
    cases k with
    | arrowUp => exact ⟨(clamp_mem _ _ _ hT).1, (clamp_mem _ _ _ hT).2, h3, h4⟩
    | arrowDown => exact ⟨(clamp_mem _ _ _ hT).1, (clamp_mem _ _ _ hT).2, h3, h4⟩
    | home => exact ⟨h66a, h66b, h3, h4⟩
    | arrowLeft => exact ⟨h1, h2, h3, h4⟩
    | arrowRight => exact ⟨h1, h2, h3, h4⟩
    | other => exact ⟨h1, h2, h3, h4⟩
  | pointerDown a => exact ⟨h1, h2, h3, h4⟩
  | pointerUp => exact ⟨h1, h2, h3, h4⟩
  | pointerMove cr tr p =>
    simp only [stepEvent]
    cases m.drag with
    | none => exact ⟨h1, h2, h3, h4⟩
    | some a =>
      cases a with
      | horizontal => exact ⟨(clamp_mem _ _ _ hT).1, (clamp_mem _ _ _ hT).2, h3, h4⟩
      | vertical => exact ⟨h1, h2, (clamp_mem _ _ _ hL).1, (clamp_mem _ _ _ hL).2⟩

/-- Claim C1 (amended): for every sequence of drag and keyboard events,
both ratios stay in their clamp ranges, provided that each clamp range is
nonempty, that the unclamped reset values 50 and 66 lie in their
respective ranges, that the starting layout is itself in range, and that
every pointer-move in the sequence carries measurable geometry (nonzero
surface height and nonzero top-region width; in JavaScript a zero
dimension makes the division produce NaN or Infinity, which the rational
model cannot express).  The extra conditions are forced because the Home
reset and the initializers write their values with no clamp. -/
theorem C1_clamp_invariant_amended (c : Config) (m : Machine) (evs : List Event)
    (hT : c.minTopPct ≤ 100 - c.minBottomPct)
    (hL : c.minLeftPct ≤ 100 - c.minRightPct)
    (h50a : c.minLeftPct ≤ 50) (h50b : (50 : ℚ) ≤ 100 - c.minRightPct)
    (h66a : c.minTopPct ≤ 66) (h66b : (66 : ℚ) ≤ 100 - c.minBottomPct)
    (hm : InRange c m.layout)
    (hgeom : evs.all goodEvent = true) :
    InRange c (run c m evs).layout := by
  induction evs generalizing m with
  | nil => exact hm
  | cons ev evs ih =>
    rw [List.all_cons, Bool.and_eq_true] at hgeom
    exact ih (stepEvent c m ev)
      (stepEvent_preservesInRange c m ev hT hL h50a h50b h66a h66b hm) hgeom.2

/-- Claim C1 is refuted at a concrete run: under the configuration with
left clamp range [60, 85] and in-range initial layout (65, 70), the
single-event sequence consisting of a Home press on the vertical handle
drives leftPct to 50, outside its clamp range. -/
theorem C1_counterexample :
    InRange cfgNarrowLeft (initState cfgNarrowLeft Store.empty) ∧
    ¬ InRange cfgNarrowLeft
        (run cfgNarrowLeft
          { layout := initState cfgNarrowLeft Store.empty, drag := none }
          [Event.keyVertical Key.home]).layout := by
  constructor
  · refine ⟨?_, ?_, ?_, ?_⟩ <;>
      norm_num [initState, readStored, cfgNarrowLeft, Store.empty]
  · intro h
    obtain ⟨-, -, h3, -⟩ := h
    norm_num [run, stepEvent, handleVerticalKey, initState, readStored,
      cfgNarrowLeft, Store.empty] at h3

/-- The in-memory machine started at layout (65, 50) with no active
drag. -/
def m0 : Machine :=
  { layout := { topPct := 65, leftPct := 50 }, drag := none }

/-- A concrete event sequence: start a horizontal drag, move the pointer
over measurable geometry, press Home on the horizontal handle, release. -/
def evs0 : List Event :=
  [Event.pointerDown Axis.horizontal,
   Event.pointerMove { top := 0, left := 0, width := 100, height := 200 }
     { top := 0, left := 0, width := 100, height := 100 }
     { clientX := 50, clientY := 150 },
   Event.keyHorizontal Key.home,
   Event.pointerUp]

/-- Instantiation of the amended claim C1 at the default configuration, an
in-range starting layout and a concrete four-event run mixing drag and
keyboard input. -/
theorem C1_witness :
    InRange cfgPlain m0.layout ∧ evs0.all goodEvent = true ∧
    InRange cfgPlain (run cfgPlain m0 evs0).layout :=
  ⟨by refine ⟨?_, ?_, ?_, ?_⟩ <;> norm_num [m0, cfgPlain],
   by decide,
   C1_clamp_invariant_amended cfgPlain m0 evs0
     (by norm_num [cfgPlain]) (by norm_num [cfgPlain])
     (by norm_num [cfgPlain]) (by norm_num [cfgPlain])
     (by norm_num [cfgPlain]) (by norm_num [cfgPlain])
     (by refine ⟨?_, ?_, ?_, ?_⟩ <;> norm_num [m0, cfgPlain])
     (by decide)⟩
